import Mathlib

/-!
Verification development for the resilience layer in planb/aws.py:
a session-refreshing proxy and a request-throttling proxy composed
around a raw boto client.

Embedding notes.

A remote failure is a botocore ClientError; the proxies inspect
e.response['Error']['Code'] and str(e).  We model an error as a record of
code, operation name and message, and model str(e) after botocore's
documented ClientError message template, which renders the error code and
the operation name together with the error message:
  "An error occurred (CODE) when calling the OP operation: MESSAGE".

The raw client's behaviour for one operation is a `Script`: a function
from the index of the underlying call (how many calls the invocation has
made so far) to the call's result.  Session refresh replaces the raw
client wholesale; the script, being indexed by call count, covers both
the old and the refreshed connection's behaviour.

Per-invocation observable state `St` counts underlying calls made,
session refreshes performed, and the total time actually slept.

A crucial source fact: planb/aws.py calls time.sleep in the throttling
retry branch (and in create_instance_profile) but the module never
imports time.  Evaluating the bare name `time` therefore raises
NameError at run time, so a throttle-triggered retry aborts the whole
invocation with NameError before any sleeping or re-calling happens.
The embedding is faithful to this: the retry branch produces the
`Outcome.nameError` outcome, and nothing can ever increment the `slept`
field.
-/

namespace Planb

/-- A ClientError as the proxies see it: machine-readable error code,
the name of the operation that was being called, and the human-readable
error message. -/
structure ClientError where
  code : String
  opName : String
  message : String
deriving DecidableEq, Repr

/-- Does the pattern occur at the head of the text? -/
def startsWithChars : List Char → List Char → Bool
  | [], _ => true
  | _ :: _, [] => false
  | p :: ps, c :: cs => p == c && startsWithChars ps cs

/-- Substring containment on character lists, used to model Python's
`in` test on strings. -/
def containsChars (pat : List Char) : List Char → Bool
  | [] => startsWithChars pat []
  | c :: cs => startsWithChars pat (c :: cs) || containsChars pat cs

/-- str(e) for a botocore ClientError: the documented message template
renders the error code and operation name along with the message. -/
def strClientError (e : ClientError) : String :=
  "An error occurred (" ++ e.code ++ ") when calling the " ++ e.opName ++
    " operation: " ++ e.message

/-- The condition tested by SessionRefreshingBotoClient._wrap_callable:
e.response['Error']['Code'] == 'RequestExpired'. -/
def expiredMatch (e : ClientError) : Bool :=
  e.code == "RequestExpired"

/-- The condition tested by RequestThrottlingBotoClient._wrap_callable:
e.response['Error']['Code'] == 'Throttling' or
'RequestLimitExceeded' in str(e). -/
def throttleMatch (e : ClientError) : Bool :=
  e.code == "Throttling" ||
    containsChars "RequestLimitExceeded".data (strClientError e).data

/-- Result of one underlying call on the raw boto client: a success
value or a raised ClientError.  Success payloads are abstracted as
naturals; the proxies forward them opaquely. -/
inductive CallResult where
  | ok (v : Nat)
  | err (e : ClientError)
deriving DecidableEq, Repr

/-- Outcome of an invocation through a proxy layer: a returned value, a
raised ClientError, or a raised NameError (the unbound name `time`). -/
inductive Outcome where
  | ok (v : Nat)
  | clientError (e : ClientError)
  | nameError
deriving DecidableEq, Repr

/-- Observable per-invocation state: underlying calls made so far,
session refreshes performed, and total time slept.  No code path of the
shipped module can sleep (time.sleep raises NameError because the module
never imports time), so no operation on `St` increments `slept`. -/
structure St where
  calls : Nat
  refreshes : Nat
  slept : ℚ
deriving DecidableEq, Repr

/-- Behaviour of the raw client for one operation, indexed by how many
underlying calls the outer invocation has made so far. -/
abbrev Script := Nat → CallResult

/-- Account for one underlying call. -/
def recordCall (st : St) : St :=
  ⟨st.calls + 1, st.refreshes, st.slept⟩

/-- SessionRefreshingBotoClient._refresh_session: builds a fresh boto3
session and replaces self._client wholesale.  Observably: one more
refresh. -/
def refreshSession (st : St) : St :=
  ⟨st.calls, st.refreshes + 1, st.slept⟩

/-- One forward of the invocation to the raw client
(getattr(self._client, name) followed by attr(*args, **kwargs)). -/
def srAttempt (script : Script) (st : St) : CallResult × St :=
  (script st.calls, recordCall st)

/-- SessionRefreshingBotoClient._wrap_callable's wrapper body: forward
the call; on a ClientError whose code is 'RequestExpired', if not yet
retried, set retried, refresh the session and forward once more; any
ClientError after that (and any non-matching ClientError before)
re-raises.  The `retried` flag bounds the while-loop to two iterations,
so the loop is unrolled here. -/
def srInvoke (script : Script) (st : St) : Outcome × St :=
  match srAttempt script st with
  | (.ok v, st1) => (.ok v, st1)
  | (.err e, st1) =>
    if expiredMatch e then
      let st2 := refreshSession st1
      match srAttempt script st2 with
      | (.ok v, st3) => (.ok v, st3)
      | (.err e2, st3) => (.clientError e2, st3)
    else
      (.clientError e, st1)

/-- MAX_RETRIES = 10. -/
def MAX_RETRIES : Nat := 10

/-- RETRY_SLEEP = 0.5. -/
def RETRY_SLEEP : ℚ := 1 / 2

/-- get_retry_sleep_duration(retries) = 2 ** retries * RETRY_SLEEP. -/
def get_retry_sleep_duration (retries : Nat) : ℚ :=
  2 ^ retries * RETRY_SLEEP

/-- RequestThrottlingBotoClient._wrap_callable's wrapper body at attempt
counter `count`: call the wrapped client; on a ClientError matching the
throttling condition with count < MAX_RETRIES the source then evaluates
time.sleep(sleep_time) — but the module never imports time, so the name
lookup raises NameError and the invocation aborts; the increment of
count and the next loop iteration are unreachable.  A non-matching or
budget-exhausted ClientError re-raises; exceptions other than
ClientError (such as NameError from an inner layer) are not caught. -/
def rtHandle (inner : St → Outcome × St) (count : Nat) (st : St) : Outcome × St :=
  match inner st with
  | (.ok v, st1) => (.ok v, st1)
  | (.nameError, st1) => (.nameError, st1)
  | (.clientError e, st1) =>
    if throttleMatch e then
      if count < MAX_RETRIES then
        (.nameError, st1)
      else
        (.clientError e, st1)
    else
      (.clientError e, st1)

/-- A full RequestThrottlingBotoClient invocation: count starts at 0. -/
def rtInvoke (inner : St → Outcome × St) (st : St) : Outcome × St :=
  rtHandle inner 0 st

/-- One invocation through the composed handle returned by boto_client:
the throttling proxy wraps the session-refreshing proxy, which wraps the
raw client. -/
def composedInvoke (script : Script) (st : St) : Outcome × St :=
  rtInvoke (srInvoke script) st

/-- Configuration held by a SessionRefreshingBotoClient. -/
structure SessionRefreshingBotoClient where
  profile_name : String
  service_name : String
  region_name : String
deriving DecidableEq, Repr

/-- A RequestThrottlingBotoClient wraps another client object. -/
structure RequestThrottlingBotoClient where
  client : SessionRefreshingBotoClient
deriving DecidableEq, Repr

/-- boto_client(service_name, region_name, profile_name): returns
RequestThrottlingBotoClient(SessionRefreshingBotoClient(profile_name,
service_name, region_name)). -/
def boto_client (service_name : String) (region_name : String)
    (profile_name : String) : RequestThrottlingBotoClient :=
  ⟨⟨profile_name, service_name, region_name⟩⟩

/-- An attribute of the raw boto client is either a callable bound
method or a plain non-callable value. -/
inductive Attr where
  | callableOp
  | plainValue (v : Nat)
deriving DecidableEq, Repr

/-- What attribute lookup on a proxy yields: a wrapper closure (tagged
with how many proxy layers wrapped it) or the raw attribute value passed
through untouched. -/
inductive ProxyAttr where
  | wrappedCallable (layers : Nat) (opName : String)
  | plainValue (v : Nat)
deriving DecidableEq, Repr

/-- SessionRefreshingBotoClient.__getattr__: fetch the attribute from
the raw client; wrap it by name when it is callable, return it directly
otherwise. -/
def sr_getattr (attrs : String → Attr) (name : String) : ProxyAttr :=
  match attrs name with
  | .callableOp => .wrappedCallable 1 name
  | .plainValue v => .plainValue v

/-- RequestThrottlingBotoClient.__getattr__: fetch the attribute from
the wrapped client (here the session-refreshing proxy, whose own
getattr answers); a wrapper closure is callable so it is wrapped again,
a plain value is returned directly. -/
def rt_getattr (attrs : String → Attr) (name : String) : ProxyAttr :=
  match sr_getattr attrs name with
  | .wrappedCallable k n => .wrappedCallable (k + 1) n
  | .plainValue v => .plainValue v

/-- Initial per-invocation state. -/
def st0 : St := ⟨0, 0, 0⟩

/-- An error with the dedicated throttling code. -/
def throttlingError : ClientError :=
  ⟨"Throttling", "DescribeInstances", "Rate exceeded"⟩

/-- An error with the expiry code and an unrelated message. -/
def pureExpiredError : ClientError :=
  ⟨"RequestExpired", "DescribeInstances", "Request has expired."⟩

/-- Raw behaviour: throttled on the first call, success afterwards. -/
def throttleOnceScript : Script :=
  fun n => if n = 0 then .err throttlingError else .ok 42

/-- Raw behaviour: throttled on every call. -/
def alwaysThrottleScript : Script :=
  fun _ => .err throttlingError

/-- An error that matches both proxies' conditions: its code is the
expiry code and its message carries the rate-limit marker, so str(e)
contains 'RequestLimitExceeded'. -/
def expiredThrottleError : ClientError :=
  ⟨"RequestExpired", "DescribeInstances", "please retry: RequestLimitExceeded"⟩

/-- An error carrying the real-world EC2 rate-limit code.  Its message
does not contain the exact marker string, but str(e) does, because the
rendered text embeds the code. -/
def reqLimitError : ClientError :=
  ⟨"RequestLimitExceeded", "RunInstances", "Request limit exceeded, retry later"⟩

/-- An error matching neither proxy's condition. -/
def accessDeniedError : ClientError :=
  ⟨"AccessDenied", "DescribeInstances", "not authorized"⟩

/-- Raw behaviour: expired on the first call, success afterwards. -/
def expiredOnceScript : Script :=
  fun n => if n = 0 then .err pureExpiredError else .ok 7

/-- Raw behaviour: success on every call. -/
def successScript : Script :=
  fun _ => .ok 5

/-- Raw behaviour: a non-retryable failure on every call. -/
def accessDeniedScript : Script :=
  fun _ => .err accessDeniedError

/-- The rate-limited classification exactly as the spec words it, for
comparison with `throttleMatch` (the condition the code tests): matched
when the code equals the throttling code OR the MESSAGE contains the
rate-limit marker string. -/
def specRateLimited (e : ClientError) : Bool :=
  e.code == "Throttling" ||
    containsChars "RequestLimitExceeded".data e.message.data

/-! Helper lemmas shared by the claim theorems. -/

/-- The throttling wrapper never changes the invocation state beyond
what its wrapped client already did: every branch returns the wrapped
client's state unchanged. -/
theorem rtHandle_snd (inner : St → Outcome × St) (c : Nat) (st : St) :
    (rtHandle inner c st).2 = (inner st).2 := by
  rcases h : inner st with ⟨o, s⟩
  cases o <;> simp only [rtHandle, h]
  all_goals first | rfl | (split <;> first | rfl | (split <;> rfl))

/-- One session-refreshing invocation performs at most one refresh. -/
theorem srInvoke_refreshes_le (script : Script) (st : St) :
    (srInvoke script st).2.refreshes ≤ st.refreshes + 1 := by
  unfold srInvoke srAttempt
  cases script st.calls with
  | ok v => simp [recordCall]
  | err e =>
    by_cases hm : expiredMatch e
    · simp only [hm, if_true]
      cases script ((refreshSession (recordCall st)).calls) <;>
        simp [recordCall, refreshSession]
    · simp [hm, recordCall]

/-- C1: the spec claims an invocation throttled on attempts 0..k and
succeeding on attempt k+1 returns the success after sleeping 0.5 × 2^i
before each retry.  The shipped module never imports time, so the first
throttle-triggered retry raises NameError instead: with a raw client
that is throttled once and would succeed on the second call, the
composed handle aborts with NameError after a single underlying call
and zero slept time, never reaching the success. -/
theorem C1_throttled_then_success_raises_nameError :
    composedInvoke throttleOnceScript st0 = (.nameError, ⟨1, 0, 0⟩) := by
  rfl

/-- C2 counterexample: an error whose code is the expiry code and whose
message carries the rate-limit marker.  The refresh layer refreshes
once, sees the same expired failure again, and re-raises it — but the
outer throttling layer classifies it as rate limited (str(e) contains
the marker), so the second credentials-expired failure observed after a
refresh does NOT propagate unchanged to the caller. -/
theorem C2_counterexample :
    expiredMatch expiredThrottleError = true ∧
    (composedInvoke (fun _ => .err expiredThrottleError) st0).2.refreshes = 1 ∧
    (composedInvoke (fun _ => .err expiredThrottleError) st0).1 ≠
      .clientError expiredThrottleError := by
  refine ⟨rfl, rfl, by decide⟩

/-- C2 amended: session refresh happens at most once per outer
invocation; and a second credentials-expired failure after a refresh
propagates unchanged provided the failure is not also classified
rate-limited by the throttling layer. -/
theorem C2_refresh_at_most_once (script : Script) (st : St) (e : ClientError)
    (h1 : e.code = "RequestExpired") (h2 : throttleMatch e = false) :
    (composedInvoke script st).2.refreshes ≤ st.refreshes + 1 ∧
    composedInvoke (fun _ => .err e) st =
      (.clientError e, ⟨st.calls + 2, st.refreshes + 1, st.slept⟩) := by
  constructor
  · show (rtHandle (srInvoke script) 0 st).2.refreshes ≤ st.refreshes + 1
    rw [rtHandle_snd]
    exact srInvoke_refreshes_le script st
  · simp [composedInvoke, rtInvoke, rtHandle, srInvoke, srAttempt,
      expiredMatch, recordCall, refreshSession, h1, h2]

/-- C2 witness. -/
theorem C2_refresh_at_most_once_witness :
    (composedInvoke alwaysThrottleScript st0).2.refreshes ≤ st0.refreshes + 1 ∧
    composedInvoke (fun _ => .err pureExpiredError) st0 =
      (.clientError pureExpiredError,
        ⟨st0.calls + 2, st0.refreshes + 1, st0.slept⟩) :=
  C2_refresh_at_most_once alwaysThrottleScript st0 pureExpiredError rfl (by decide)

/-- C3: the spec claims an always-throttled invocation makes exactly 11
attempts and propagates the 11th ClientError.  The shipped module never
imports time, so the first retry raises NameError: only one underlying
call is made and NameError, not the ClientError, reaches the caller. -/
theorem C3_always_throttled_aborts_after_one_attempt :
    composedInvoke alwaysThrottleScript st0 = (.nameError, ⟨1, 0, 0⟩) ∧
    (composedInvoke alwaysThrottleScript st0).2.calls = 1 := by
  exact ⟨rfl, rfl⟩

/-- C4: an invocation that fails once with the expiry code and succeeds
on the repeated forward returns the success result, having performed
exactly one session refresh and two underlying calls, with no time
slept. -/
theorem C4_expired_then_success (script : Script) (st : St) (e : ClientError)
    (v : Nat) (h0 : script st.calls = .err e)
    (h1 : script (st.calls + 1) = .ok v) (h2 : e.code = "RequestExpired") :
    composedInvoke script st =
      (.ok v, ⟨st.calls + 2, st.refreshes + 1, st.slept⟩) := by
  simp [composedInvoke, rtInvoke, rtHandle, srInvoke, srAttempt,
    expiredMatch, recordCall, refreshSession, h0, h1, h2]

/-- C4 witness. -/
theorem C4_expired_then_success_witness :
    composedInvoke expiredOnceScript st0 =
      (.ok 7, ⟨st0.calls + 2, st0.refreshes + 1, st0.slept⟩) :=
  C4_expired_then_success expiredOnceScript st0 pureExpiredError 7 rfl rfl rfl

/-- C5: when the raw client succeeds on the first call, the composed
handle returns that result unchanged after exactly one underlying call:
no refresh, no retry, no time slept. -/
theorem C5_first_attempt_success (script : Script) (st : St) (v : Nat)
    (h : script st.calls = .ok v) :
    composedInvoke script st =
      (.ok v, ⟨st.calls + 1, st.refreshes, st.slept⟩) := by
  simp [composedInvoke, rtInvoke, rtHandle, srInvoke, srAttempt, recordCall, h]

/-- C5 witness. -/
theorem C5_first_attempt_success_witness :
    composedInvoke successScript st0 =
      (.ok 5, ⟨st0.calls + 1, st0.refreshes, st0.slept⟩) :=
  C5_first_attempt_success successScript st0 5 rfl

/-- C6 counterexample: the claim says a failure is rate-limited iff its
code is the throttling code or its MESSAGE contains the marker.  An
error with code equal to the marker itself and a message without the
marker is classified rate-limited by the code (the marker occurs in
str(e) through the code), against the claim: the proxies do not
propagate it unchanged. -/
theorem C6_counterexample :
    specRateLimited reqLimitError = false ∧
    throttleMatch reqLimitError = true ∧
    (composedInvoke (fun _ => .err reqLimitError) st0).1 ≠
      .clientError reqLimitError := by
  refine ⟨by decide, by decide, by decide⟩

/-- C6 amended: behaviourally, the refresh layer refreshes exactly when
the code equals the expiry code, and the composed handle propagates a
persistent failure unchanged exactly when the code is not the
throttling code and the rendered exception text (which embeds the code
and operation name along with the message) does not contain the
rate-limit marker. -/
theorem C6_classification (e : ClientError) (st : St) :
    ((srInvoke (fun _ => .err e) st).2.refreshes = st.refreshes + 1 ↔
      e.code = "RequestExpired") ∧
    ((composedInvoke (fun _ => .err e) st).1 = .clientError e ↔
      ¬(e.code = "Throttling" ∨
        containsChars "RequestLimitExceeded".data (strClientError e).data = true)) := by
  constructor
  · by_cases hm : expiredMatch e
    · have hc : e.code = "RequestExpired" := by
        simpa [expiredMatch] using hm
      simp [srInvoke, srAttempt, recordCall, refreshSession, hm, hc]
    · have hc : ¬ e.code = "RequestExpired" := by
        simpa [expiredMatch] using hm
      simp [srInvoke, srAttempt, recordCall, refreshSession, hm, hc]
  · by_cases ht : throttleMatch e
    · have hd : e.code = "Throttling" ∨
          containsChars "RequestLimitExceeded".data (strClientError e).data = true := by
        simpa [throttleMatch] using ht
      by_cases hm : expiredMatch e <;>
        simp [composedInvoke, rtInvoke, rtHandle, srInvoke, srAttempt,
          recordCall, refreshSession, hm, ht, hd, MAX_RETRIES]
    · have hd : ¬(e.code = "Throttling" ∨
          containsChars "RequestLimitExceeded".data (strClientError e).data = true) := by
        simpa [throttleMatch] using ht
      by_cases hm : expiredMatch e <;>
        simp [composedInvoke, rtInvoke, rtHandle, srInvoke, srAttempt,
          recordCall, refreshSession, hm, ht, hd]

/-- C7: a failure matching neither the expiry condition nor the
throttling condition propagates unchanged on the first attempt: one
underlying call, no refresh, no time slept. -/
theorem C7_nonmatching_propagates (script : Script) (st : St) (e : ClientError)
    (h0 : script st.calls = .err e) (h1 : expiredMatch e = false)
    (h2 : throttleMatch e = false) :
    composedInvoke script st =
      (.clientError e, ⟨st.calls + 1, st.refreshes, st.slept⟩) := by
  simp [composedInvoke, rtInvoke, rtHandle, srInvoke, srAttempt, recordCall,
    h0, h1, h2]

/-- C7 witness. -/
theorem C7_nonmatching_propagates_witness :
    composedInvoke accessDeniedScript st0 =
      (.clientError accessDeniedError,
        ⟨st0.calls + 1, st0.refreshes, st0.slept⟩) :=
  C7_nonmatching_propagates accessDeniedScript st0 accessDeniedError rfl
    (by decide) (by decide)

/-- C8: the backoff policy is the pure function n • 0.5 × 2^n: each
retry's wait doubles the previous one (so the sequence is strictly
increasing), and the cumulative wait over the 10 allowed retries is
0.5 × (2^10 − 1) = 511.5 time-units. -/
theorem C8_backoff_policy :
    (∀ n, get_retry_sleep_duration n = 2 ^ n * (1 / 2 : ℚ)) ∧
    (∀ n, get_retry_sleep_duration (n + 1) = 2 * get_retry_sleep_duration n) ∧
    StrictMono get_retry_sleep_duration ∧
    (Finset.range MAX_RETRIES).sum get_retry_sleep_duration = 1023 / 2 ∧
    (1023 / 2 : ℚ) = (1 / 2) * (2 ^ MAX_RETRIES - 1) := by
  have hval : ∀ n, get_retry_sleep_duration n = 2 ^ n * (1 / 2 : ℚ) :=
    fun n => rfl
  have hdouble : ∀ n,
      get_retry_sleep_duration (n + 1) = 2 * get_retry_sleep_duration n := by
    intro n
    simp only [get_retry_sleep_duration, pow_succ]
    ring
  refine ⟨hval, hdouble, ?_, ?_, by norm_num [MAX_RETRIES]⟩
  · apply strictMono_nat_of_lt_succ
    intro n
    have hpos : 0 < get_retry_sleep_duration n := by
      rw [hval]
      positivity
    rw [hdouble]
    linarith
  · simp [MAX_RETRIES, Finset.sum_range_succ, get_retry_sleep_duration,
      RETRY_SLEEP]
    norm_num

/-- C9: the factory composes the layers in the fixed order: the
throttling proxy is outermost, wrapping the session-refreshing proxy,
which wraps the raw connection.  Behavioural witness of the order: a
persistently-failing error matching both conditions still triggers the
inner refresh, which could not happen if the throttling layer were
innermost (its NameError would abort the call before any refresh). -/
theorem C9_factory_composition (service region profile : String)
    (script : Script) (st : St) :
    boto_client service region profile =
      RequestThrottlingBotoClient.mk
        (SessionRefreshingBotoClient.mk profile service region) ∧
    composedInvoke script st = rtHandle (srInvoke script) 0 st ∧
    (composedInvoke (fun _ => .err expiredThrottleError) st).2.refreshes =
      st.refreshes + 1 := by
  exact ⟨rfl, rfl, rfl⟩

/-- C10: an attribute of the raw client that is not callable is
returned unwrapped by both proxies: plain attribute reads bypass the
wrapping entirely. -/
theorem C10_plain_attribute_passthrough (attrs : String → Attr)
    (name : String) (v : Nat) (h : attrs name = .plainValue v) :
    sr_getattr attrs name = .plainValue v ∧
    rt_getattr attrs name = .plainValue v := by
  simp [sr_getattr, rt_getattr, h]

/-- C10 witness. -/
theorem C10_plain_attribute_passthrough_witness :
    sr_getattr (fun _ => .plainValue 5) "meta" = .plainValue 5 ∧
    rt_getattr (fun _ => .plainValue 5) "meta" = .plainValue 5 :=
  C10_plain_attribute_passthrough (fun _ => .plainValue 5) "meta" 5 rfl

end Planb
